import Mathlib

/-!
Verification of the dosimeter event-counting and hardware-supervision core
(`dosimeter.py`, `auxiliaries.py`): a shallow embedding of the queue-trimming
logic, the LED driver, the network-status loop and the timer loop, with
theorems about retention-window trimming, blink supersession, error
propagation and the liveness state machine.

Timestamps are modelled as rationals (seconds since the epoch, the code uses
`time_float` values).  The event queue `collections.deque` is a `List` with
its head at the left (oldest) end: `append` adds at the right, `popleft`
removes the head.
-/

/-- Seconds since `EPOCH_START_TIME`, the value of `now_float()` /
`time_float(...)` in `dosimeter.py`. -/
abbrev Time := ℚ

/-- Hardware fault raised by `RPi.GPIO` operations on a torn-down handle
(Python `RuntimeError`, "if GPIO is cleaned up too early"). -/
inductive HWError where
  | runtimeError
deriving DecidableEq, Repr

/-- Fault raised by `LED.__init__` in `auxiliaries.py` when not on a
Raspberry Pi (Python `EnvironmentError`). -/
inductive InitError where
  | environmentError
deriving DecidableEq, Repr

/-- A blink subprocess handle (`multiprocessing.Process` running
`LED._do_blink`): its blink period and whether it is still alive
(`terminate()` clears `alive` but the handle object remains). -/
structure Blinker where
  interval : ℚ
  alive : Bool
deriving DecidableEq, Repr

/-- State of one `LED` object (`auxiliaries.py` lines 65-142).
`output` is the physical pin level, `blinker` is the `self.blinker` field
(`None` or a `Process` handle).  `replaced` is ghost history: handles whose
reference `start_blink` dropped when it superseded them, kept so that
"no residual task still toggling" is expressible. -/
structure LEDState where
  pin : ℕ
  output : Bool
  blinker : Option Blinker
  replaced : List Blinker
deriving DecidableEq, Repr

/-- Embeds `GPIO.output(pin, value)`: succeeds when the hardware handle is live,
raises `RuntimeError` after teardown.  Returns the driven level. -/
def gpioOutput (live : Bool) (value : Bool) : Except HWError Bool :=
  if live then .ok value else .error .runtimeError

namespace LED

/-- Embeds `LED.__init__(pin)` in `auxiliaries.py`: on a Raspberry Pi set up the
pin and initialize `blinker = None`; otherwise raise `EnvironmentError`. -/
def init (rpi : Bool) (pin : ℕ) : Except InitError LEDState :=
  if rpi then
    .ok { pin := pin, output := false, blinker := none, replaced := [] }
  else
    .error .environmentError

/-- Embeds `LED.on` in `auxiliaries.py` (the spec calls it `turnOn`):
`GPIO.output(self.pin, True)` with no exception handling — a hardware
fault propagates to the caller. -/
def turnOn (live : Bool) (l : LEDState) : Except HWError LEDState :=
  match gpioOutput live true with
  | .ok v => .ok { l with output := v }
  | .error e => .error e

/-- Embeds `LED.off` in `auxiliaries.py`: `GPIO.output(self.pin, False)` inside
`try ... except RuntimeError: pass` — a fault is swallowed and the call
completes as a no-op. -/
def off (live : Bool) (l : LEDState) : LEDState :=
  match gpioOutput live false with
  | .ok v => { l with output := v }
  | .error _ => l

/-- Embeds `LED.flash`: `self.on(); sleep(0.005); self.off()`.  The initial `on`
is unprotected, so its fault propagates. -/
def flash (live : Bool) (l : LEDState) : Except HWError LEDState :=
  match turnOn live l with
  | .ok l₁ => .ok (off live l₁)
  | .error e => .error e

/-- Embeds `LED.start_blink(interval)`: if `self.blinker` is set, terminate it;
then create and start a fresh blink subprocess and store its handle.
The superseded handle (now dead) moves to the ghost history. -/
def start_blink (interval : ℚ) (l : LEDState) : LEDState :=
  match l.blinker with
  | some b =>
      { l with blinker := some { interval := interval, alive := true },
               replaced := { b with alive := false } :: l.replaced }
  | none =>
      { l with blinker := some { interval := interval, alive := true } }

/-- Embeds `LED.stop_blink`: terminate the blink subprocess if present (the dead
handle stays in `self.blinker` — the code never resets it to `None`),
then `self.off()`. -/
def stop_blink (live : Bool) (l : LEDState) : LEDState :=
  let l₁ :=
    match l.blinker with
    | some b => { l with blinker := some { b with alive := false } }
    | none => l
  off live l₁

end LED

/-- All blink subprocesses of the LED that are still alive: the current
handle (if alive) together with any superseded handle not yet terminated. -/
def activeBlinkTasks (l : LEDState) : List Blinker :=
  (l.blinker.toList ++ l.replaced).filter (fun b => b.alive)

/-- Embeds `Dosimeter.check_accumulation` (`dosimeter.py` lines 155-163): pop
events from the left of the queue while the oldest event fails the strict
test `counts[0] > now - accum_time`; stop at the first event that passes. -/
def checkAccumulation (now accumTime : ℚ) : List Time → List Time
  | [] => []
  | t :: rest =>
      if t > now - accumTime then t :: rest
      else checkAccumulation now accumTime rest

/-- State of a `Dosimeter` object: the deque of count times, the retention
duration `accum_time`, and the optional counts LED. -/
structure DosimeterState where
  counts : List Time
  accumTime : ℚ
  led : Option LEDState
deriving DecidableEq, Repr

namespace Dosimeter

/-- Embeds `Dosimeter.check_accumulation` acting on the object state. -/
def check_accumulation (now : Time) (st : DosimeterState) : DosimeterState :=
  { st with counts := checkAccumulation now st.accumTime st.counts }

/-- Embeds `Dosimeter.get_all_counts`: call `check_accumulation`, then return
`self.counts`.  Returns the value together with the mutated state. -/
def get_all_counts (now : Time) (st : DosimeterState) :
    List Time × DosimeterState :=
  let st' := check_accumulation now st
  (st'.counts, st')

/-- Embeds `Dosimeter.count` (`dosimeter.py` lines 131-145), the GPIO interrupt
callback: append `now_float()` to the queue, then `if self.LED:
self.LED.flash()`.  There is no exception handling anywhere in the
callback, so a hardware fault in the flash escapes it; the second
component reports the escaping fault (`none` = normal return).  The
append precedes the flash, so it survives a faulting flash. -/
def count (live : Bool) (now : Time) (st : DosimeterState) :
    DosimeterState × Option HWError :=
  let st₁ := { st with counts := st.counts ++ [now] }
  match st₁.led with
  | none => (st₁, none)
  | some l =>
      match LED.flash live l with
      | .ok l' => ({ st₁ with led := some l' }, none)
      | .error e => ({ st₁ with led := some l }, some e)

end Dosimeter

/-- State of a `NetworkStatus` object (`auxiliaries.py` lines 145-228):
the `is_up` flag, the two polling intervals, the fixed blink period
(`self.blink_period_s = 1.5`), and the optional network LED. -/
structure NSState where
  is_up : Bool
  up_interval_s : ℚ
  down_interval_s : ℚ
  blink_period_s : ℚ
  led : Option LEDState
deriving DecidableEq, Repr

namespace NetworkStatus

/-- Embeds `NetworkStatus.__init__`: stores the intervals, sets
`blink_period_s = 1.5` and `is_up = False` (Down until the first probe
completes). -/
def init (up_interval_s down_interval_s : ℚ) (led : Option LEDState) :
    NSState :=
  { is_up := false, up_interval_s := up_interval_s,
    down_interval_s := down_interval_s, blink_period_s := 3/2, led := led }

/-- Embeds `NetworkStatus.update` (`auxiliaries.py` lines 191-206) given the
outcome of `self._ping()` (`pingOk = true` iff the ping returned 0).
On success: `is_up = True`; if there is an LED, stop its blinker if one
is set, then `led.on()` (which can fault on dead hardware).  On failure:
`is_up = False`; if there is an LED, `led.start_blink(blink_period_s)`. -/
def update (live : Bool) (pingOk : Bool) (st : NSState) :
    Except HWError NSState :=
  if pingOk then
    match st.led with
    | none => .ok { st with is_up := true }
    | some l =>
        let l₁ := if l.blinker.isSome then LED.stop_blink live l else l
        match LED.turnOn live l₁ with
        | .ok l₂ => .ok { st with is_up := true, led := some l₂ }
        | .error e => .error e
  else
    .ok { st with is_up := false,
                  led := st.led.map (LED.start_blink st.blink_period_s) }

/-- One pass of the body of `NetworkStatus._do_pings` (`auxiliaries.py`
lines 208-215) never terminates on its own; this runs it over a scripted
list of ping outcomes, returning the `is_up` value observed after each
probe and the sleep interval taken after each probe (`up_interval_s`
when up, `down_interval_s` when down). -/
def do_pings_run (live : Bool) (st : NSState) :
    List Bool → Except HWError (List Bool × List ℚ)
  | [] => .ok ([], [])
  | pingOk :: rest =>
      match update live pingOk st with
      | .error e => .error e
      | .ok st' =>
          let slp := if st'.is_up then st'.up_interval_s
                     else st'.down_interval_s
          match do_pings_run live st' rest with
          | .error e => .error e
          | .ok (states, sleeps) => .ok (st'.is_up :: states, slp :: sleeps)

end NetworkStatus

/-- State of a `DosimeterTimer` object (`dosimeter.py` lines 48-95): the
CPM interval `self.DT` (default 300 s), the `running` flag, the owned
`Dosimeter`, and the list of `(count, interval)` pairs handed to the
external collaborator so far (the code never emits any). -/
structure TimerState where
  DT : ℚ
  running : Bool
  dosimeter : DosimeterState
  emissions : List (ℕ × ℚ)
deriving DecidableEq, Repr

namespace DosimeterTimer

/-- One iteration of the `while self.running` loop in
`DosimeterTimer.start` (`dosimeter.py` lines 89-91).  The body is
literally `pass` followed by `sleep(10)`: it touches neither the
dosimeter nor the emission list; the returned rational is the sleep
duration of the iteration. -/
def tick (st : TimerState) : TimerState × ℚ :=
  (st, 10)

/-- The `while self.running` loop of `DosimeterTimer.start`, run for at
most `n` iterations, collecting the sleep durations. -/
def loop : ℕ → TimerState → TimerState × List ℚ
  | 0, s => (s, [])
  | Nat.succ k, s =>
      if s.running then
        let (s', slp) := tick s
        let (s'', slps) := loop k s'
        (s'', slp :: slps)
      else (s, [])

/-- Embeds `DosimeterTimer.start`, run for `n` loop iterations: sets
`running = True`, then iterates the loop body, collecting the sleep
durations. -/
def start_run (n : ℕ) (st : TimerState) : TimerState × List ℚ :=
  loop n { st with running := true }

end DosimeterTimer

/-- Concrete fixture: a freshly constructed LED on pin 20 (no blinker). -/
def ledIdle : LEDState :=
  { pin := 20, output := false, blinker := none, replaced := [] }

/-- Concrete fixture: an LED on pin 20 with an active blinker of period 1. -/
def ledBlinking : LEDState :=
  { pin := 20, output := false,
    blinker := some { interval := 1, alive := true }, replaced := [] }

/-- Concrete fixture: the counts LED on pin 21. -/
def ledCounts : LEDState :=
  { pin := 21, output := false, blinker := none, replaced := [] }

/-- Concrete fixture: a dosimeter with queue `[0, 5, 9]` and retention 3. -/
def dosThree : DosimeterState :=
  { counts := [0, 5, 9], accumTime := 3, led := none }

/-- Concrete fixture: a dosimeter with the default retention and the
counts LED attached. -/
def dosWithLED : DosimeterState :=
  { counts := [], accumTime := 3600, led := some ledCounts }

/-- The trim returns a suffix of the queue, and every element of the
dropped prefix failed the retention test: its age is at least the
retention duration. -/
theorem checkAccumulation_suffix (now D : ℚ) (l : List Time) :
    ∃ pre, l = pre ++ checkAccumulation now D l ∧
      ∀ t ∈ pre, D ≤ now - t := by
  induction l with
  | nil => exact ⟨[], rfl, by simp⟩
  | cons t rest ih =>
    by_cases h : t > now - D
    · exact ⟨[], by simp [checkAccumulation, h], by simp⟩
    · obtain ⟨pre, hpre, hall⟩ := ih
      refine ⟨t :: pre, ?_, ?_⟩
      · simpa [checkAccumulation, h] using hpre
      · intro x hx
        rcases List.mem_cons.mp hx with rfl | hx
        · have := not_lt.mp h
          linarith
        · exact hall x hx

/-- On a queue sorted by time, every event surviving the trim is strictly
younger than the retention duration. -/
theorem checkAccumulation_fresh (now D : ℚ) (l : List Time)
    (hs : l.Sorted (fun a b => a ≤ b)) :
    ∀ t ∈ checkAccumulation now D l, now - t < D := by
  induction l with
  | nil => simp [checkAccumulation]
  | cons t rest ih =>
    rw [List.sorted_cons] at hs
    by_cases h : t > now - D
    · intro x hx
      rw [checkAccumulation, if_pos h] at hx
      rcases List.mem_cons.mp hx with rfl | hx
      · linarith
      · have := hs.1 x hx
        linarith
    · intro x hx
      rw [checkAccumulation, if_neg h] at hx
      exact ih hs.2 x hx

/-- Trimming is idempotent: a second trim at the same time removes
nothing further. -/
theorem checkAccumulation_idem (now D : ℚ) (l : List Time) :
    checkAccumulation now D (checkAccumulation now D l) =
      checkAccumulation now D l := by
  induction l with
  | nil => simp [checkAccumulation]
  | cons t rest ih =>
    by_cases h : t > now - D
    · simp [checkAccumulation, h]
    · simpa [checkAccumulation, h] using ih

/-- Claim C1, counterexample: an event whose age is exactly the retention
duration is evicted by `Dosimeter.check_accumulation`, not retained — the
code keeps an event only if `event.time > now - accum_time`, strictly.
Here the event at time 0 has age exactly 10 at `now = 10` with retention
10, and the trim removes it. -/
theorem c1_exact_age_evicted_counterexample :
    (10 : ℚ) - 0 = 10 ∧
    Dosimeter.check_accumulation 10
        { counts := [0], accumTime := 10, led := none } =
      { counts := [], accumTime := 10, led := none } := by
  constructor
  · norm_num
  · norm_num [Dosimeter.check_accumulation, checkAccumulation]

/-- Claim C1 (amended): after `Dosimeter.check_accumulation` on a
time-ordered queue, the queue is a suffix of the old one; every removed
event satisfies `now - event.time >= accum_time` and every remaining
event satisfies `now - event.time < accum_time` (hence also `<=`); an
event whose age is exactly the retention duration is evicted, not
retained, because the code's retention test is strict. -/
theorem c1_trim_boundary (now : Time) (st : DosimeterState)
    (hs : st.counts.Sorted (fun a b => a ≤ b)) :
    (∃ pre, st.counts = pre ++ (Dosimeter.check_accumulation now st).counts ∧
        ∀ t ∈ pre, st.accumTime ≤ now - t) ∧
    ∀ t ∈ (Dosimeter.check_accumulation now st).counts,
      now - t < st.accumTime := by
  exact ⟨checkAccumulation_suffix now st.accumTime st.counts,
    checkAccumulation_fresh now st.accumTime st.counts hs⟩

/-- Witness for C1: the queue `[0, 5, 9]` at `now = 10` with retention 3. -/
theorem c1_trim_boundary_witness :
    ([0, 5, 9] : List Time).Sorted (fun a b => a ≤ b) ∧
    ((∃ pre, ([0, 5, 9] : List Time) =
          pre ++ (Dosimeter.check_accumulation 10
            { counts := [0, 5, 9], accumTime := 3, led := none }).counts ∧
        ∀ t ∈ pre, (3 : ℚ) ≤ 10 - t) ∧
      ∀ t ∈ (Dosimeter.check_accumulation 10
          { counts := [0, 5, 9], accumTime := 3, led := none }).counts,
        10 - t < (3 : ℚ)) := by
  have hs : ([0, 5, 9] : List Time).Sorted (fun a b => a ≤ b) := by
    simp [List.sorted_cons]
    norm_num
  exact ⟨hs, c1_trim_boundary 10
    { counts := [0, 5, 9], accumTime := 3, led := none } hs⟩

/-- Claim C2, counterexample: with a torn-down hardware handle, the fault
raised by the indicator flash inside `Dosimeter.count` escapes the
callback (second component `some runtimeError`) — there is no try/except
anywhere in the callback path, so the fault is not caught at the
callback boundary. -/
theorem c2_fault_escapes_counterexample :
    Dosimeter.count false 5
        { counts := [], accumTime := 3600,
          led := some { pin := 21, output := false, blinker := none,
                        replaced := [] } } =
      ({ counts := [5], accumTime := 3600,
         led := some { pin := 21, output := false, blinker := none,
                       replaced := [] } },
       some HWError.runtimeError) := rfl

/-- Claim C2 (amended): `Dosimeter.count` performs no catching at the
callback boundary: a hardware fault raised by the optional indicator
flash propagates out of the callback.  The append to the queue precedes
the flash, so the count itself is still recorded even when the flash
faults. -/
theorem c2_count_propagates_flash_fault (now : Time) (st : DosimeterState)
    (l : LEDState) (hled : st.led = some l) :
    (Dosimeter.count false now st).2 = some HWError.runtimeError ∧
    (Dosimeter.count false now st).1.counts = st.counts ++ [now] := by
  simp [Dosimeter.count, hled, LED.flash, LED.turnOn, gpioOutput]

/-- Witness for C2: a dosimeter with an LED on pin 21 and an empty queue,
a count at time 5. -/
theorem c2_count_propagates_flash_fault_witness :
    ({ counts := [], accumTime := 3600,
       led := some { pin := 21, output := false, blinker := none,
                     replaced := [] } } : DosimeterState).led =
      some { pin := 21, output := false, blinker := none, replaced := [] } ∧
    ((Dosimeter.count false 5
        { counts := [], accumTime := 3600,
          led := some { pin := 21, output := false, blinker := none,
                        replaced := [] } }).2 = some HWError.runtimeError ∧
      (Dosimeter.count false 5
        { counts := [], accumTime := 3600,
          led := some { pin := 21, output := false, blinker := none,
                        replaced := [] } }).1.counts =
        [] ++ [(5 : ℚ)]) :=
  ⟨rfl, c2_count_propagates_flash_fault 5
    { counts := [], accumTime := 3600,
      led := some { pin := 21, output := false, blinker := none,
                    replaced := [] } }
    { pin := 21, output := false, blinker := none, replaced := [] } rfl⟩

/-- Claim C3, counterexample: `LED.on` (here `turnOn`) called while a
blink task is active does not cancel it — the blinker handle is untouched
and the blink task is still alive afterwards, racing with the requested
steady state. -/
theorem c3_on_leaves_blinker_counterexample :
    LED.turnOn true
        { pin := 20, output := false,
          blinker := some { interval := 1, alive := true },
          replaced := [] } =
      .ok { pin := 20, output := true,
            blinker := some { interval := 1, alive := true },
            replaced := [] } ∧
    activeBlinkTasks
        { pin := 20, output := true,
          blinker := some { interval := 1, alive := true },
          replaced := [] } =
      [{ interval := 1, alive := true }] := ⟨rfl, rfl⟩

/-- Claim C3 (amended): `LED.on` and `LED.off` never touch the blink
task — they only drive the pin.  Cancellation is the caller's duty, and
the caller `NetworkStatus.update` does it: on a successful probe it
calls `stop_blink` (when a blinker handle is set) before `on`, so the
LED it leaves behind has no active blink task. -/
theorem c3_on_off_no_cancel (live : Bool) (l : LEDState)
    (hdead : ∀ b ∈ l.replaced, b.alive = false) :
    (∀ l', LED.turnOn live l = .ok l' → l'.blinker = l.blinker) ∧
    (LED.off live l).blinker = l.blinker ∧
    ∀ st : NSState, st.led = some l →
      ∃ st', NetworkStatus.update true true st = .ok st' ∧
        st'.is_up = true ∧
        ∃ l₂, st'.led = some l₂ ∧ activeBlinkTasks l₂ = [] := by
  refine ⟨?_, ?_, ?_⟩
  · intro l' h
    cases live with
    | true =>
        simp [LED.turnOn, gpioOutput] at h
        simp [← h]
    | false => simp [LED.turnOn, gpioOutput] at h
  · cases live <;> simp [LED.off, gpioOutput]
  · intro st hst
    cases hblk : l.blinker with
    | none =>
        refine ⟨{ st with is_up := true, led := some { l with output := true } }, ?_, rfl, ?_⟩
        · simp [NetworkStatus.update, hst, hblk, LED.turnOn, gpioOutput]
        · exact ⟨_, rfl, by
            simp [activeBlinkTasks, hblk]
            exact hdead⟩
    | some b =>
        refine ⟨{ st with is_up := true, led := some { l with blinker := some { b with alive := false }, output := true } }, ?_, rfl, ?_⟩
        · simp [NetworkStatus.update, hst, hblk, LED.stop_blink,
            LED.turnOn, LED.off, gpioOutput]
        · exact ⟨_, rfl, by
            simp [activeBlinkTasks]
            exact hdead⟩

/-- Witness for C3: the LED `ledBlinking` (active blinker of period 1)
inside a `NetworkStatus` that just saw a successful ping. -/
theorem c3_on_off_no_cancel_witness :
    (∀ b ∈ ledBlinking.replaced, b.alive = false) ∧
    ((∀ l', LED.turnOn true ledBlinking = .ok l' →
        l'.blinker = ledBlinking.blinker) ∧
      (LED.off true ledBlinking).blinker = ledBlinking.blinker ∧
      ∀ st : NSState, st.led = some ledBlinking →
        ∃ st', NetworkStatus.update true true st = .ok st' ∧
          st'.is_up = true ∧
          ∃ l₂, st'.led = some l₂ ∧ activeBlinkTasks l₂ = []) :=
  ⟨by simp [ledBlinking], c3_on_off_no_cancel true ledBlinking
    (by simp [ledBlinking])⟩

/-- The `while self.running` loop of `DosimeterTimer.start` leaves the
state untouched and sleeps 10 s each iteration. -/
theorem DosimeterTimer.loop_running (n : ℕ) (s : TimerState)
    (h : s.running = true) :
    DosimeterTimer.loop n s = (s, List.replicate n 10) := by
  induction n with
  | zero => simp [DosimeterTimer.loop]
  | succ k ih =>
      simp [DosimeterTimer.loop, DosimeterTimer.tick, h, ih,
        List.replicate_succ]

/-- Claim C4: the body of `DosimeterTimer.start`'s loop is `pass;
sleep(10)`.  Run for any number of iterations it never calls the
dosimeter's trim or snapshot, never emits a `(count, interval)` pair,
and sleeps 10 s per iteration regardless of the configured `DT`
(default 300): the whole per-tick contract is unimplemented. -/
theorem c4_timer_loop_is_stub (n : ℕ) (st : TimerState) :
    DosimeterTimer.start_run n st =
      ({ st with running := true }, List.replicate n 10) := by
  simp [DosimeterTimer.start_run]
  exact DosimeterTimer.loop_running n { st with running := true } rfl

/-- Claim C5: from the initial Down state, the scripted ping outcomes
`[fail, fail, success, fail]` drive `NetworkStatus` through the `is_up`
sequence `[Down, Down, Up, Down]` (`false`/`true` for Down/Up), and the
sleep taken after each probe — i.e. before the next probe — is the down
interval when the probe left the state Down and the up interval when it
left it Up: `[d, d, u, d]`. -/
theorem c5_scripted_liveness (u d : ℚ) (led : Option LEDState) :
    NetworkStatus.do_pings_run true (NetworkStatus.init u d led)
        [false, false, true, false] =
      .ok ([false, false, true, false], [d, d, u, d]) := by
  rcases led with _ | l
  · simp [NetworkStatus.do_pings_run, NetworkStatus.update,
      NetworkStatus.init]
  · rcases l with ⟨pin, out, blk, rep⟩
    rcases blk with _ | b <;>
      simp [NetworkStatus.do_pings_run, NetworkStatus.update,
        NetworkStatus.init, LED.start_blink, LED.stop_blink, LED.turnOn,
        LED.off, gpioOutput]

/-- Claim C6: starting a blink twice leaves exactly one active blink
task, the one with the most recent period; the superseded first task was
terminated before the new one started (its dead handle is in the ghost
history).  A subsequent `stop_blink` terminates the task and forces the
output off, and `stop_blink` with no active task is a safe no-op that
still drives the output off. -/
theorem c6_blink_supersession (l : LEDState) (p₁ p₂ : ℚ)
    (hdead : ∀ b ∈ l.replaced, b.alive = false) :
    (activeBlinkTasks (LED.start_blink p₂ (LED.start_blink p₁ l)) =
        [{ interval := p₂, alive := true }] ∧
      { interval := p₁, alive := false } ∈
        (LED.start_blink p₂ (LED.start_blink p₁ l)).replaced) ∧
    (activeBlinkTasks
        (LED.stop_blink true (LED.start_blink p₂ (LED.start_blink p₁ l)))
          = [] ∧
      (LED.stop_blink true
        (LED.start_blink p₂ (LED.start_blink p₁ l))).output = false) ∧
    (l.blinker = none →
      LED.stop_blink true l = { l with output := false }) := by
  refine ⟨⟨?_, ?_⟩, ⟨?_, ?_⟩, ?_⟩
  · rcases hblk : l.blinker with _ | b <;>
      simp [LED.start_blink, hblk, activeBlinkTasks] <;> exact hdead
  · rcases hblk : l.blinker with _ | b <;>
      simp [LED.start_blink, hblk]
  · rcases hblk : l.blinker with _ | b <;>
      simp [LED.start_blink, LED.stop_blink, LED.off, gpioOutput, hblk,
        activeBlinkTasks] <;> exact hdead
  · rcases hblk : l.blinker with _ | b <;>
      simp [LED.start_blink, LED.stop_blink, LED.off, gpioOutput, hblk]
  · intro hblk
    simp [LED.stop_blink, LED.off, gpioOutput, hblk]

/-- Witness for C6: the fresh LED `ledIdle`, blink periods 2 then 3. -/
theorem c6_blink_supersession_witness :
    (∀ b ∈ ledIdle.replaced, b.alive = false) ∧
    ((activeBlinkTasks (LED.start_blink 3 (LED.start_blink 2 ledIdle)) =
        [{ interval := 3, alive := true }] ∧
      { interval := 2, alive := false } ∈
        (LED.start_blink 3 (LED.start_blink 2 ledIdle)).replaced) ∧
    (activeBlinkTasks
        (LED.stop_blink true (LED.start_blink 3 (LED.start_blink 2 ledIdle)))
          = [] ∧
      (LED.stop_blink true
        (LED.start_blink 3 (LED.start_blink 2 ledIdle))).output = false) ∧
    (ledIdle.blinker = none →
      LED.stop_blink true ledIdle = { ledIdle with output := false })) :=
  ⟨by simp [ledIdle], c6_blink_supersession ledIdle 2 3 (by simp [ledIdle])⟩

/-- Claim C7: sampling twice at the same observation time with no new
events in between returns two equal count lists (so equal counts), and
sampling never removes an event still inside the retention window. -/
theorem c7_sampling_non_destructive (now : Time) (st : DosimeterState) :
    (Dosimeter.get_all_counts now
        (Dosimeter.get_all_counts now st).2).1 =
      (Dosimeter.get_all_counts now st).1 ∧
    ∀ t ∈ st.counts, now - t < st.accumTime →
      t ∈ (Dosimeter.get_all_counts now st).1 := by
  constructor
  · show checkAccumulation now st.accumTime
        (checkAccumulation now st.accumTime st.counts) =
      checkAccumulation now st.accumTime st.counts
    exact checkAccumulation_idem now st.accumTime st.counts
  · intro t ht hfresh
    obtain ⟨pre, hpre, hall⟩ :=
      checkAccumulation_suffix now st.accumTime st.counts
    have hmem : t ∈ pre ++ checkAccumulation now st.accumTime st.counts :=
      hpre ▸ ht
    rcases List.mem_append.mp hmem with hin | hin
    · exact absurd (hall t hin) (by linarith)
    · exact hin

/-- Witness for C7: the dosimeter fixture with queue `[0, 5, 9]`,
retention 3, sampled twice at time 10. -/
theorem c7_sampling_non_destructive_witness :
    (Dosimeter.get_all_counts 10
        (Dosimeter.get_all_counts 10 dosThree).2).1 =
      (Dosimeter.get_all_counts 10 dosThree).1 ∧
    ∀ t ∈ dosThree.counts, 10 - t < dosThree.accumTime →
      t ∈ (Dosimeter.get_all_counts 10 dosThree).1 :=
  c7_sampling_non_destructive 10 dosThree

/-- Claim C8, counterexample: after teardown (`live = false`), `LED.on`
raises instead of completing as a no-op, and so does `LED.flash` (its
initial `on` is unprotected) — only `LED.off` is swallowed. -/
theorem c8_on_flash_raise_counterexample :
    LED.turnOn false ledIdle = .error HWError.runtimeError ∧
    LED.flash false ledIdle = .error HWError.runtimeError := ⟨rfl, rfl⟩

/-- Claim C8 (amended): after teardown only `LED.off` swallows the
hardware error and completes as a non-fatal no-op; `LED.on` and
`LED.flash` propagate the `RuntimeError` to the caller. -/
theorem c8_only_off_swallowed (l : LEDState) :
    LED.off false l = l ∧
    LED.turnOn false l = .error HWError.runtimeError ∧
    LED.flash false l = .error HWError.runtimeError := ⟨rfl, rfl, rfl⟩

/-- Claim C9: `Dosimeter.get_all_counts` itself trims before returning —
the returned list is exactly the trimmed queue produced by
`check_accumulation`, and on a time-ordered queue no returned event is
older than the retention duration. -/
theorem c9_get_all_counts_trims (now : Time) (st : DosimeterState)
    (hs : st.counts.Sorted (fun a b => a ≤ b)) :
    (Dosimeter.get_all_counts now st).1 =
      (Dosimeter.check_accumulation now st).counts ∧
    ∀ t ∈ (Dosimeter.get_all_counts now st).1,
      ¬ st.accumTime < now - t := by
  refine ⟨rfl, ?_⟩
  intro t ht
  have hf := checkAccumulation_fresh now st.accumTime st.counts hs t ht
  linarith

/-- Witness for C9: the dosimeter fixture with queue `[0, 5, 9]` and
retention 3, read at time 10. -/
theorem c9_get_all_counts_trims_witness :
    dosThree.counts.Sorted (fun a b => a ≤ b) ∧
    ((Dosimeter.get_all_counts 10 dosThree).1 =
        (Dosimeter.check_accumulation 10 dosThree).counts ∧
      ∀ t ∈ (Dosimeter.get_all_counts 10 dosThree).1,
        ¬ dosThree.accumTime < 10 - t) := by
  have hs : dosThree.counts.Sorted (fun a b => a ≤ b) := by
    simp [dosThree, List.sorted_cons]
    norm_num
  exact ⟨hs, c9_get_all_counts_trims 10 dosThree hs⟩

/-- Claim C10: constructing an `LED` when not on a Raspberry Pi raises
`EnvironmentError`; a successful construction holds the requested pin
and a `blinker` field initialized to `None`. -/
theorem c10_init_requires_rpi (pin : ℕ) :
    LED.init false pin = .error InitError.environmentError ∧
    LED.init true pin =
      .ok { pin := pin, output := false, blinker := none,
            replaced := [] } := ⟨rfl, rfl⟩
